import Mathlib

/-!
Shallow embedding of Simbody's constraint-evaluation core
(`src/ConstraintImpl.h`) and verification of its stated properties.

Scalars are modelled as `ℚ` (the C++ `Real` is a floating-point type; all the
operations verified here are field operations, so the rational field is the
exact model of the intended real arithmetic).  Vectors (`Vec3`), rotation
matrices (`Rotation`, stored by columns as in SimTK), rigid transforms
(`Transform`) and spatial vectors (`SpatialVec` = angular part, linear part)
mirror the SimTKcommon types used by the source.  The realized state and
stage caches, which are external collaborators of this file, are modelled as
a `KinState`: a map from constrained-body index to that body's transform,
spatial velocity and spatial acceleration measured from and expressed in the
constraint's ancestor frame, plus the constrained-mobilizer data used by
`ConstantSpeed`.  Output buffers (`Vector_<SpatialVec>`, `Vector`) are
modelled as Lean lists, with `Vector::operator[] +=` modelled by
`List.set`/`List.getD`.
-/

namespace Simbody

/-- Vector of three rational coordinates, the model of SimTK `Vec3`. -/
@[ext]
structure Vec3 where
  x : ℚ
  y : ℚ
  z : ℚ

instance : Zero Vec3 := ⟨⟨0, 0, 0⟩⟩

instance : Add Vec3 := ⟨fun a b => ⟨a.x + b.x, a.y + b.y, a.z + b.z⟩⟩

instance : Neg Vec3 := ⟨fun a => ⟨-a.x, -a.y, -a.z⟩⟩

instance : Sub Vec3 := ⟨fun a b => ⟨a.x - b.x, a.y - b.y, a.z - b.z⟩⟩

instance : SMul ℚ Vec3 := ⟨fun c a => ⟨c * a.x, c * a.y, c * a.z⟩⟩

@[simp] theorem Vec3.zero_x : (0 : Vec3).x = 0 := rfl
@[simp] theorem Vec3.zero_y : (0 : Vec3).y = 0 := rfl
@[simp] theorem Vec3.zero_z : (0 : Vec3).z = 0 := rfl
@[simp] theorem Vec3.add_x (a b : Vec3) : (a + b).x = a.x + b.x := rfl
@[simp] theorem Vec3.add_y (a b : Vec3) : (a + b).y = a.y + b.y := rfl
@[simp] theorem Vec3.add_z (a b : Vec3) : (a + b).z = a.z + b.z := rfl
@[simp] theorem Vec3.neg_x (a : Vec3) : (-a).x = -a.x := rfl
@[simp] theorem Vec3.neg_y (a : Vec3) : (-a).y = -a.y := rfl
@[simp] theorem Vec3.neg_z (a : Vec3) : (-a).z = -a.z := rfl
@[simp] theorem Vec3.sub_x (a b : Vec3) : (a - b).x = a.x - b.x := rfl
@[simp] theorem Vec3.sub_y (a b : Vec3) : (a - b).y = a.y - b.y := rfl
@[simp] theorem Vec3.sub_z (a b : Vec3) : (a - b).z = a.z - b.z := rfl
@[simp] theorem Vec3.smul_x (c : ℚ) (a : Vec3) : (c • a).x = c * a.x := rfl
@[simp] theorem Vec3.smul_y (c : ℚ) (a : Vec3) : (c • a).y = c * a.y := rfl
@[simp] theorem Vec3.smul_z (c : ℚ) (a : Vec3) : (c • a).z = c * a.z := rfl

instance : AddCommGroup Vec3 where
  add := (· + ·)
  zero := 0
  neg := (- ·)
  sub := (· - ·)
  add_assoc a b c := by ext <;> simp <;> ring
  zero_add a := by ext <;> simp
  add_zero a := by ext <;> simp
  add_comm a b := by ext <;> simp <;> ring
  neg_add_cancel a := by ext <;> simp
  sub_eq_add_neg a b := by ext <;> simp <;> ring
  nsmul := nsmulRec
  zsmul := zsmulRec

/-- Dot product of two vectors, the model of SimTK `dot` / `operator~ *`. -/
def dot (a b : Vec3) : ℚ := a.x * b.x + a.y * b.y + a.z * b.z

/-- Cross product, the model of SimTK `operator%` on `Vec3`. -/
def cross (a b : Vec3) : Vec3 :=
  ⟨a.y * b.z - a.z * b.y, a.z * b.x - a.x * b.z, a.x * b.y - a.y * b.x⟩

/-- Rotation matrix stored by columns, the model of SimTK `Rotation`.
`colx`, `coly`, `colz` are the images of the coordinate axes, i.e. the
columns `R.x()`, `R.y()`, `R.z()` of the source. -/
@[ext]
structure Rotation where
  colx : Vec3
  coly : Vec3
  colz : Vec3

namespace Rotation

/-- Matrix-vector product `R * v`. -/
def apply (R : Rotation) (v : Vec3) : Vec3 := v.x • R.colx + v.y • R.coly + v.z • R.colz

/-- Transposed matrix-vector product `~R * v` (rows of `R` dotted with `v`). -/
def transposeApply (R : Rotation) (v : Vec3) : Vec3 :=
  ⟨dot R.colx v, dot R.coly v, dot R.colz v⟩

/-- Matrix-matrix product `R1 * R2`, by columns. -/
def comp (R1 R2 : Rotation) : Rotation :=
  ⟨R1.apply R2.colx, R1.apply R2.coly, R1.apply R2.colz⟩

/-- Identity rotation. -/
def id3 : Rotation := ⟨⟨1, 0, 0⟩, ⟨0, 1, 0⟩, ⟨0, 0, 1⟩⟩

/-- Orthogonality of a rotation in the direction needed to invert it,
stated on the three coordinate basis vectors (hence decidable):
`R * ~R = identity`. -/
def OrthoRT (R : Rotation) : Prop :=
  R.apply (R.transposeApply ⟨1, 0, 0⟩) = ⟨1, 0, 0⟩ ∧
  R.apply (R.transposeApply ⟨0, 1, 0⟩) = ⟨0, 1, 0⟩ ∧
  R.apply (R.transposeApply ⟨0, 0, 1⟩) = ⟨0, 0, 1⟩

/-- Linearity extends `OrthoRT` from the basis vectors to every vector. -/
theorem orthoRT_apply {R : Rotation} (h : R.OrthoRT) (v : Vec3) :
    R.apply (R.transposeApply v) = v := by
  obtain ⟨h1, h2, h3⟩ := h
  have e1 := congrArg Vec3.x h1; have e2 := congrArg Vec3.y h1; have e3 := congrArg Vec3.z h1
  have f1 := congrArg Vec3.x h2; have f2 := congrArg Vec3.y h2; have f3 := congrArg Vec3.z h2
  have g1 := congrArg Vec3.x h3; have g2 := congrArg Vec3.y h3; have g3 := congrArg Vec3.z h3
  simp only [apply, transposeApply, dot, Vec3.add_x, Vec3.add_y, Vec3.add_z,
    Vec3.smul_x, Vec3.smul_y, Vec3.smul_z] at e1 e2 e3 f1 f2 f3 g1 g2 g3
  ext
  · simp only [apply, transposeApply, dot, Vec3.add_x, Vec3.smul_x]
    linear_combination v.x * e1 + v.y * f1 + v.z * g1
  · simp only [apply, transposeApply, dot, Vec3.add_y, Vec3.smul_y]
    linear_combination v.x * e2 + v.y * f2 + v.z * g2
  · simp only [apply, transposeApply, dot, Vec3.add_z, Vec3.smul_z]
    linear_combination v.x * e3 + v.y * f3 + v.z * g3

end Rotation

/-- Rigid transform, the model of SimTK `Transform`: rotation `R` and
translation `T` (the located frame's origin). -/
@[ext]
structure Transform where
  R : Rotation
  T : Vec3

namespace Transform

/-- Transform applied to a point: `X * p = R * p + T`. -/
def apply (X : Transform) (p : Vec3) : Vec3 := X.R.apply p + X.T

/-- Inverse transform applied to a point: `~X * p = ~R * (p - T)`. -/
def invApply (X : Transform) (p : Vec3) : Vec3 := X.R.transposeApply (p - X.T)

end Transform

/-- Spatial vector: angular (rotational) part and linear part, the model of
SimTK `SpatialVec` with `[0]` the rotational and `[1]` the linear component. -/
@[ext]
structure SpatialVec where
  rot : Vec3
  lin : Vec3

instance : Zero SpatialVec := ⟨⟨0, 0⟩⟩

instance : Add SpatialVec := ⟨fun a b => ⟨a.rot + b.rot, a.lin + b.lin⟩⟩

@[simp] theorem SpatialVec.zero_rot : (0 : SpatialVec).rot = 0 := rfl
@[simp] theorem SpatialVec.zero_lin : (0 : SpatialVec).lin = 0 := rfl
@[simp] theorem SpatialVec.add_rot (a b : SpatialVec) : (a + b).rot = a.rot + b.rot := rfl
@[simp] theorem SpatialVec.add_lin (a b : SpatialVec) : (a + b).lin = a.lin + b.lin := rfl

/-- Realized kinematic state, the model of the external `State` plus the
stage caches (`SBPositionCache`, `SBVelocityCache`, `SBAccelerationCache`)
read through `getBodyTransform` / `getBodyVelocity` / `getBodyAcceleration`,
all measured from and expressed in the constraint's ancestor frame A and
addressed by constrained-body index.  `oneU`/`oneUDot` model
`getOneU`/`getOneUDot` for a constrained mobilizer and mobility index, and
`constrainedUIndex` models `getConstrainedUIndex`, the Topological Index
Map's slot assignment for a mobility. -/
structure KinState where
  bodyTransform : Nat → Transform
  bodyVelocity : Nat → SpatialVec
  bodyAcceleration : Nat → SpatialVec
  oneU : Nat → Nat → ℚ
  oneUDot : Nat → Nat → ℚ
  constrainedUIndex : Nat → Nat → Nat

namespace KinState

/-- Rotational part of a body's transform (`getBodyRotation`, `R_AB`). -/
def bodyRotation (s : KinState) (B : Nat) : Rotation := (s.bodyTransform B).R

/-- Angular velocity of a body (`getBodyAngularVelocity`, `w_AB`). -/
def bodyAngularVelocity (s : KinState) (B : Nat) : Vec3 := (s.bodyVelocity B).rot

/-- Angular acceleration of a body (`getBodyAngularAcceleration`, `b_AB`). -/
def bodyAngularAcceleration (s : KinState) (B : Nat) : Vec3 := (s.bodyAcceleration B).rot

end KinState

/-- Location of the body-fixed station `p_B` measured from and expressed in
the ancestor frame: `X_AB * p_B` (source `calcStationLocation`). -/
def calcStationLocation (s : KinState) (B : Nat) (p_B : Vec3) : Vec3 :=
  (s.bodyTransform B).apply p_B

/-- Velocity of the body-fixed station `p_B` in the ancestor frame:
`V_AB[1] + V_AB[0] % p_A` with `p_A = R_AB * p_B`
(source `calcStationVelocity`). -/
def calcStationVelocity (s : KinState) (B : Nat) (p_B : Vec3) : Vec3 :=
  let p_A := (s.bodyRotation B).apply p_B
  let V_AB := s.bodyVelocity B
  V_AB.lin + cross V_AB.rot p_A

/-- Acceleration of the body-fixed station `p_B` in the ancestor frame:
`A_AB[1] + A_AB[0] % p_A + w_AB % (w_AB % p_A)` — the cross products grouped
exactly as in the source (`calcStationAcceleration`, which notes that the
cross product is not associative). -/
def calcStationAcceleration (s : KinState) (B : Nat) (p_B : Vec3) : Vec3 :=
  let p_A := (s.bodyRotation B).apply p_B
  let w_AB := s.bodyAngularVelocity B
  let A_AB := s.bodyAcceleration B
  A_AB.lin + cross A_AB.rot p_A + cross w_AB (cross w_AB p_A)

/-- Accumulate an ancestor-frame force applied at the body-fixed station
`p_B` into the body-force buffer: entry `B` gains the spatial vector
`((R_AB * p_B) % forceInA, forceInA)` (source `addInStationForce`). -/
def addInStationForce (s : KinState) (B : Nat) (p_B forceInA : Vec3)
    (bodyForcesInA : List SpatialVec) : List SpatialVec :=
  bodyForcesInA.set B
    (bodyForcesInA.getD B 0 + ⟨cross ((s.bodyRotation B).apply p_B) forceInA, forceInA⟩)

/-- Accumulate an ancestor-frame pure torque on body `B` into the body-force
buffer: only the rotational component of entry `B` changes
(source `addInBodyTorque`). -/
def addInBodyTorque (_s : KinState) (B : Nat) (torqueInA : Vec3)
    (bodyForcesInA : List SpatialVec) : List SpatialVec :=
  bodyForcesInA.set B (bodyForcesInA.getD B 0 + ⟨torqueInA, 0⟩)

/-- Accumulate a generalized (mobility) force into the slot assigned to
mobility `which` of constrained mobilizer `M`
(source `addInOneMobilityForce`). -/
def addInOneMobilityForce (s : KinState) (M which : Nat) (f : ℚ)
    (mobilityForces : List ℚ) : List ℚ :=
  let i := s.constrainedUIndex M which
  mobilityForces.set i (mobilityForces.getD i 0 + f)

/-- Sum of a per-entry vector quantity over a body-force buffer, threading
the constrained-body index of each entry (`k` is the index of the first
entry of the sublist).  Specialized below to the total force, total torque
and total moment of a buffer. -/
def idxSum (g : Nat → SpatialVec → Vec3) : Nat → List SpatialVec → Vec3
  | _, [] => 0
  | k, e :: t => g k e + idxSum g (k + 1) t

/-- Sum of the force (linear) parts of a body-force buffer. -/
def sumForce (buf : List SpatialVec) : Vec3 := idxSum (fun _ e => e.lin) 0 buf

/-- Sum of the torque (rotational) parts of a body-force buffer. -/
def sumTorque (buf : List SpatialVec) : Vec3 := idxSum (fun _ e => e.rot) 0 buf

/-- Total moment of a body-force buffer about the ancestor origin: each
entry's torque part (a moment about its own body's origin) shifted by its
body origin cross the force part. -/
def sumMomentAboutA (s : KinState) (buf : List SpatialVec) : Vec3 :=
  idxSum (fun B e => e.rot + cross ((s.bodyTransform B).T) e.lin) 0 buf

/-! ## The Rod constraint (`Constraint::RodImpl`) -/

/-- Construction-time data of the Rod (fixed-distance) constraint:
two constrained bodies, a station fixed on each, and the rod length.
`pointRadius` is visualization-only, carried for faithfulness. -/
structure RodImpl where
  B1 : Nat
  B2 : Nat
  defaultPoint1 : Vec3
  defaultPoint2 : Vec3
  defaultRodLength : ℚ
  pointRadius : ℚ

namespace RodImpl

/-- Default equation counts set by the Rod constructor: `ConstraintImpl(1,0,0)`. -/
def defaultCounts : Nat × Nat × Nat := (1, 0, 0)

/-- Position error: `perr = (p . p - d^2)/2` with `p = p2 - p1` the vector
between the two stations in the ancestor frame
(source `realizePositionErrorsVirtual`). -/
def realizePositionErrorsVirtual (s : KinState) (rod : RodImpl) : ℚ :=
  let p1 := calcStationLocation s rod.B1 rod.defaultPoint1
  let p2 := calcStationLocation s rod.B2 rod.defaultPoint2
  let p := p2 - p1
  (dot p p - rod.defaultRodLength * rod.defaultRodLength) / 2

/-- First derivative of the position error: `pverr = v . p` with
`v = v2 - v1` the relative station velocity
(source `realizePositionDotErrorsVirtual`). -/
def realizePositionDotErrorsVirtual (s : KinState) (rod : RodImpl) : ℚ :=
  let p1 := calcStationLocation s rod.B1 rod.defaultPoint1
  let p2 := calcStationLocation s rod.B2 rod.defaultPoint2
  let p := p2 - p1
  let v1 := calcStationVelocity s rod.B1 rod.defaultPoint1
  let v2 := calcStationVelocity s rod.B2 rod.defaultPoint2
  let v := v2 - v1
  dot v p

/-- Second derivative of the position error: `paerr = a . p + v . v`
(source `realizePositionDotDotErrorsVirtual`). -/
def realizePositionDotDotErrorsVirtual (s : KinState) (rod : RodImpl) : ℚ :=
  let p1 := calcStationLocation s rod.B1 rod.defaultPoint1
  let p2 := calcStationLocation s rod.B2 rod.defaultPoint2
  let p := p2 - p1
  let v1 := calcStationVelocity s rod.B1 rod.defaultPoint1
  let v2 := calcStationVelocity s rod.B2 rod.defaultPoint2
  let v := v2 - v1
  let a1 := calcStationAcceleration s rod.B1 rod.defaultPoint1
  let a2 := calcStationAcceleration s rod.B2 rod.defaultPoint2
  let a := a2 - a1
  dot a p + dot v v

/-- Constraint-force application: `f2 = lambda * p` applied at the second
station, `-f2` at the first (source `applyPositionConstraintForcesVirtual`;
the `mobilityForces` argument is untouched by the source routine). -/
def applyPositionConstraintForcesVirtual (s : KinState) (rod : RodImpl) (lambda : ℚ)
    (bodyForcesInA : List SpatialVec) : List SpatialVec :=
  let p1 := calcStationLocation s rod.B1 rod.defaultPoint1
  let p2 := calcStationLocation s rod.B2 rod.defaultPoint2
  let p := p2 - p1
  let f2 := lambda • p
  addInStationForce s rod.B1 rod.defaultPoint1 (-f2)
    (addInStationForce s rod.B2 rod.defaultPoint2 f2 bodyForcesInA)

end RodImpl

/-- Concrete state for the spec's Rod example: both bodies at rest with
identity rotations, body 1 at the ancestor origin and body 2 translated to
`(2,0,0)`. -/
def rodExampleState : KinState where
  bodyTransform B := if B = 2 then ⟨Rotation.id3, ⟨2, 0, 0⟩⟩ else ⟨Rotation.id3, 0⟩
  bodyVelocity _ := 0
  bodyAcceleration _ := 0
  oneU _ _ := 0
  oneUDot _ _ := 0
  constrainedUIndex _ _ := 0

/-- Concrete Rod for the spec's example: stations at the two body origins,
rod length 1. -/
def rodExample : RodImpl :=
  { B1 := 1, B2 := 2, defaultPoint1 := 0, defaultPoint2 := 0,
    defaultRodLength := 1, pointRadius := 0 }

/-- Concrete state placing body 2 one rod length from body 1, so the Rod
example constraint is exactly satisfied. -/
def rodUnitState : KinState :=
  { rodExampleState with
      bodyTransform := fun B =>
        if B = 2 then ⟨Rotation.id3, ⟨1, 0, 0⟩⟩ else ⟨Rotation.id3, 0⟩ }

/-! ## The PointInPlane constraint (`Constraint::PointInPlaneImpl`) -/

/-- Construction-time data of the PointInPlane constraint: plane fixed on
body B (normal and height in the B frame), follower point S fixed on body F.
The last two fields are visualization-only. -/
structure PointInPlaneImpl where
  planeBody : Nat
  followerBody : Nat
  defaultPlaneNormal : Vec3
  defaultPlaneHeight : ℚ
  defaultFollowerPoint : Vec3
  planeHalfWidth : ℚ
  pointRadius : ℚ

namespace PointInPlaneImpl

/-- Force application: `f = lambda * n` (re-expressed in A) applied to the
follower point S of body F, `-f` to the coincident material point C of body
B (source `applyPositionConstraintForcesVirtual`). -/
def applyPositionConstraintForcesVirtual (s : KinState) (pip : PointInPlaneImpl) (lambda : ℚ)
    (bodyForcesInA : List SpatialVec) : List SpatialVec :=
  let X_AB := s.bodyTransform pip.planeBody
  let p_FS := pip.defaultFollowerPoint
  let p_AS := calcStationLocation s pip.followerBody pip.defaultFollowerPoint
  let p_BC := X_AB.invApply p_AS
  let force_A := X_AB.R.apply (lambda • pip.defaultPlaneNormal)
  addInStationForce s pip.planeBody p_BC (-force_A)
    (addInStationForce s pip.followerBody p_FS force_A bodyForcesInA)

end PointInPlaneImpl

/-! ## The PointOnLine constraint (`Constraint::PointOnLineImpl`) -/

/-- Construction-time data of the PointOnLine constraint: line fixed on body
B (direction `z` and a point P on it, in the B frame), follower point S fixed
on body F.  `x` and `y` are the topology cache: the two plane normals
perpendicular to the line computed at Topology-stage realization
(`mutable UnitVec3 x, y` in the source).  `lineHalfLength`/`pointRadius` are
visualization-only. -/
structure PointOnLineImpl where
  lineBody : Nat
  followerBody : Nat
  defaultLineDirection : Vec3
  defaultPointOnLine : Vec3
  defaultFollowerPoint : Vec3
  lineHalfLength : ℚ
  pointRadius : ℚ
  x : Vec3
  y : Vec3

namespace PointOnLineImpl

/-- Topology-stage realization: writes the topology cache
`x = defaultLineDirection.perp()` and `y = UnitVec3(defaultLineDirection % x)`
(source `realizeTopologyVirtual`).  `perp` models `UnitVec3::perp()`, which is
SimTKcommon library code not part of this repository; per its documented
contract it returns a unit vector perpendicular to its (unit) argument, which
the theorems below take as a hypothesis.  The `UnitVec3` constructor
normalizes its argument; for perpendicular unit vectors the cross product is
already a unit vector, so the normalization is the identity and is omitted. -/
def realizeTopologyVirtual (perp : Vec3 → Vec3) (pol : PointOnLineImpl) : PointOnLineImpl :=
  let xv := perp pol.defaultLineDirection
  { pol with x := xv, y := cross pol.defaultLineDirection xv }

/-- Setter for the visualization half-length (source `setLineDisplayHalfLength`;
`h <= 0` means do not display). -/
def setLineDisplayHalfLength (pol : PointOnLineImpl) (h : ℚ) : PointOnLineImpl :=
  { pol with lineHalfLength := if h > 0 then h else 0 }

/-- Setter for the visualization point radius (source `setPointDisplayRadius`). -/
def setPointDisplayRadius (pol : PointOnLineImpl) (r : ℚ) : PointOnLineImpl :=
  { pol with pointRadius := if r > 0 then r else 0 }

/-- Force application: `f = lambda0*x + lambda1*y` (re-expressed in A)
applied to the follower point S of body F, `-f` to the coincident material
point C of body B (source `applyPositionConstraintForcesVirtual`). -/
def applyPositionConstraintForcesVirtual (s : KinState) (pol : PointOnLineImpl)
    (lambda0 lambda1 : ℚ) (bodyForcesInA : List SpatialVec) : List SpatialVec :=
  let X_AB := s.bodyTransform pol.lineBody
  let p_FS := pol.defaultFollowerPoint
  let p_AS := calcStationLocation s pol.followerBody pol.defaultFollowerPoint
  let p_BC := X_AB.invApply p_AS
  let force_B := lambda0 • pol.x + lambda1 • pol.y
  let force_A := X_AB.R.apply force_B
  addInStationForce s pol.lineBody p_BC (-force_A)
    (addInStationForce s pol.followerBody p_FS force_A bodyForcesInA)

end PointOnLineImpl

/-! ## The ConstantAngle constraint (`Constraint::ConstantAngleImpl`) -/

/-- Construction-time data of the ConstantAngle constraint: unit axis `b`
fixed on base body B, unit axis `f` fixed on follower body F, required angle
between them.  `cosineOfDefaultAngle` is the topology cache
(`mutable Real cosineOfDefaultAngle`), written at Topology-stage
realization.  `axisLength`/`axisThickness` are visualization-only. -/
structure ConstantAngleImpl where
  B : Nat
  F : Nat
  defaultAxisB : Vec3
  defaultAxisF : Vec3
  defaultAngle : ℚ
  axisLength : ℚ
  axisThickness : ℚ
  cosineOfDefaultAngle : ℚ

namespace ConstantAngleImpl

/-- Topology-stage realization: writes the topology cache
`cosineOfDefaultAngle = std::cos(defaultAngle)` (source
`realizeTopologyVirtual`).  `cosFn` models `std::cos`, C-library code not
part of this repository. -/
def realizeTopologyVirtual (cosFn : ℚ → ℚ) (ca : ConstantAngleImpl) : ConstantAngleImpl :=
  { ca with cosineOfDefaultAngle := cosFn ca.defaultAngle }

/-- Setter for the visualization axis length (source `setAxisLength`). -/
def setAxisLength (ca : ConstantAngleImpl) (length : ℚ) : ConstantAngleImpl :=
  { ca with axisLength := if length > 0 then length else 0 }

/-- Setter for the visualization axis thickness (source `setAxisThickness`). -/
def setAxisThickness (ca : ConstantAngleImpl) (t : ℚ) : ConstantAngleImpl :=
  { ca with axisThickness := if t > 0 then t else 0 }

/-- Force application: torque `lambda * (f_A % b_A)` applied to body F and
its negation to body B (source `applyPositionConstraintForcesVirtual`). -/
def applyPositionConstraintForcesVirtual (s : KinState) (ca : ConstantAngleImpl) (lambda : ℚ)
    (bodyForcesInA : List SpatialVec) : List SpatialVec :=
  let b_A := (s.bodyRotation ca.B).apply ca.defaultAxisB
  let f_A := (s.bodyRotation ca.F).apply ca.defaultAxisF
  let torque_F_A := lambda • cross f_A b_A
  addInBodyTorque s ca.B (-torque_F_A)
    (addInBodyTorque s ca.F torque_F_A bodyForcesInA)

end ConstantAngleImpl

/-! ## The Ball constraint (`Constraint::BallImpl`) -/

/-- Construction-time data of the Ball (point-coincidence) constraint:
point P fixed on body B1, point S fixed on body B2.  `defaultRadius` is
visualization-only. -/
structure BallImpl where
  B1 : Nat
  B2 : Nat
  defaultPoint1 : Vec3
  defaultPoint2 : Vec3
  defaultRadius : ℚ

namespace BallImpl

/-- Position error: `perr = p_AS - p_AP`, the offset between the two
attachment stations in the ancestor frame
(source `realizePositionErrorsVirtual`). -/
def realizePositionErrorsVirtual (s : KinState) (ball : BallImpl) : Vec3 :=
  let p_AP := calcStationLocation s ball.B1 ball.defaultPoint1
  let p_AS := calcStationLocation s ball.B2 ball.defaultPoint2
  p_AS - p_AP

/-- First derivative: `pverr = v_AS - v_AC`, where C is the material point
of B1 coincident with S (source `realizePositionDotErrorsVirtual`). -/
def realizePositionDotErrorsVirtual (s : KinState) (ball : BallImpl) : Vec3 :=
  let X_AB := s.bodyTransform ball.B1
  let p_AS := calcStationLocation s ball.B2 ball.defaultPoint2
  let p_BC := X_AB.invApply p_AS
  let v_AS := calcStationVelocity s ball.B2 ball.defaultPoint2
  let v_AC := calcStationVelocity s ball.B1 p_BC
  v_AS - v_AC

/-- Second derivative: `paerr = a_AS - a_AC`
(source `realizePositionDotDotErrorsVirtual`). -/
def realizePositionDotDotErrorsVirtual (s : KinState) (ball : BallImpl) : Vec3 :=
  let X_AB := s.bodyTransform ball.B1
  let p_AS := calcStationLocation s ball.B2 ball.defaultPoint2
  let p_BC := X_AB.invApply p_AS
  let a_AS := calcStationAcceleration s ball.B2 ball.defaultPoint2
  let a_AC := calcStationAcceleration s ball.B1 p_BC
  a_AS - a_AC

/-- Force application: the multiplier 3-vector applied as a force to S on
B2, its negation to the coincident material point C of B1
(source `applyPositionConstraintForcesVirtual`). -/
def applyPositionConstraintForcesVirtual (s : KinState) (ball : BallImpl) (force_A : Vec3)
    (bodyForcesInA : List SpatialVec) : List SpatialVec :=
  let X_AB := s.bodyTransform ball.B1
  let p_FS := ball.defaultPoint2
  let p_AS := calcStationLocation s ball.B2 p_FS
  let p_BC := X_AB.invApply p_AS
  addInStationForce s ball.B1 p_BC (-force_A)
    (addInStationForce s ball.B2 p_FS force_A bodyForcesInA)

end BallImpl

/-! ## The ConstantOrientation constraint (`Constraint::ConstantOrientationImpl`) -/

/-- Construction-time data of the ConstantOrientation constraint: rotation
`RB` fixed on base body B, rotation `RF` fixed on follower body F. -/
structure ConstantOrientationImpl where
  B : Nat
  F : Nat
  defaultRB : Rotation
  defaultRF : Rotation

namespace ConstantOrientationImpl

/-- Position errors: the three cyclic perpendicularity equations
`(~RFx*RBy, ~RFy*RBz, ~RFz*RBx)` with all axes expressed in A
(source `realizePositionErrorsVirtual`). -/
def realizePositionErrorsVirtual (s : KinState) (co : ConstantOrientationImpl) : Vec3 :=
  let RB := (s.bodyRotation co.B).comp co.defaultRB
  let RF := (s.bodyRotation co.F).comp co.defaultRF
  ⟨dot RF.colx RB.coly, dot RF.coly RB.colz, dot RF.colz RB.colx⟩

/-- First derivatives: `~w_BF * (RFi % RBj)` for the three cyclic axis pairs
(source `realizePositionDotErrorsVirtual`). -/
def realizePositionDotErrorsVirtual (s : KinState) (co : ConstantOrientationImpl) : Vec3 :=
  let RB := (s.bodyRotation co.B).comp co.defaultRB
  let RF := (s.bodyRotation co.F).comp co.defaultRF
  let w_AB := s.bodyAngularVelocity co.B
  let w_AF := s.bodyAngularVelocity co.F
  let w_BF := w_AF - w_AB
  ⟨dot w_BF (cross RF.colx RB.coly),
   dot w_BF (cross RF.coly RB.colz),
   dot w_BF (cross RF.colz RB.colx)⟩

/-- Second derivatives, following the source term by term
(source `realizePositionDotDotErrorsVirtual`). -/
def realizePositionDotDotErrorsVirtual (s : KinState) (co : ConstantOrientationImpl) : Vec3 :=
  let RB := (s.bodyRotation co.B).comp co.defaultRB
  let RF := (s.bodyRotation co.F).comp co.defaultRF
  let w_AB := s.bodyAngularVelocity co.B
  let w_AF := s.bodyAngularVelocity co.F
  let w_BF := w_AF - w_AB
  let b_AB := s.bodyAngularAcceleration co.B
  let b_AF := s.bodyAngularAcceleration co.F
  let b_BF := b_AF - b_AB
  ⟨dot b_BF (cross RF.colx RB.coly)
     + dot w_BF (cross (cross w_AF RF.colx) RB.coly - cross (cross w_AB RB.coly) RF.colx),
   dot b_BF (cross RF.coly RB.colz)
     + dot w_BF (cross (cross w_AF RF.coly) RB.colz - cross (cross w_AB RB.colz) RF.coly),
   dot b_BF (cross RF.colz RB.colx)
     + dot w_BF (cross (cross w_AF RF.colz) RB.colx - cross (cross w_AB RB.colx) RF.colz)⟩

/-- Force application: the torque pair
`t_F = lx*(RFx%RBy) + ly*(RFy%RBz) + lz*(RFz%RBx)` on F and `-t_F` on B
(source `applyPositionConstraintForcesVirtual`). -/
def applyPositionConstraintForcesVirtual (s : KinState) (co : ConstantOrientationImpl)
    (lambda : Vec3) (bodyForcesInA : List SpatialVec) : List SpatialVec :=
  let RB := (s.bodyRotation co.B).comp co.defaultRB
  let RF := (s.bodyRotation co.F).comp co.defaultRF
  let torque_F_A := lambda.x • cross RF.colx RB.coly
    + lambda.y • cross RF.coly RB.colz
    + lambda.z • cross RF.colz RB.colx
  addInBodyTorque s co.B (-torque_F_A)
    (addInBodyTorque s co.F torque_F_A bodyForcesInA)

end ConstantOrientationImpl

/-! ## The Weld constraint (`Constraint::WeldImpl`) -/

/-- Construction-time data of the Weld constraint: a frame fixed on each of
the two bodies.  The last three fields are visualization-only. -/
structure WeldImpl where
  B : Nat
  F : Nat
  defaultFrameB : Transform
  defaultFrameF : Transform
  axisDisplayLength : ℚ
  frameBColor : Vec3
  frameFColor : Vec3

namespace WeldImpl

/-- Position errors: orientation error entries 0..2 and position error
entries 3..5 of the source's six-entry `perr` array, returned as the pair
(entries 0..2, entries 3..5) (source `realizePositionErrorsVirtual`). -/
def realizePositionErrorsVirtual (s : KinState) (w : WeldImpl) : Vec3 × Vec3 :=
  let RB := (s.bodyRotation w.B).comp w.defaultFrameB.R
  let RF := (s.bodyRotation w.F).comp w.defaultFrameF.R
  let orientationErr : Vec3 :=
    ⟨dot RF.colx RB.coly, dot RF.coly RB.colz, dot RF.colz RB.colx⟩
  let p_AF1 := calcStationLocation s w.B w.defaultFrameB.T
  let p_AF2 := calcStationLocation s w.F w.defaultFrameF.T
  (orientationErr, p_AF2 - p_AF1)

/-- First derivatives of the six position errors, as the pair
(orientation entries, position entries)
(source `realizePositionDotErrorsVirtual`). -/
def realizePositionDotErrorsVirtual (s : KinState) (w : WeldImpl) : Vec3 × Vec3 :=
  let RB := (s.bodyRotation w.B).comp w.defaultFrameB.R
  let RF := (s.bodyRotation w.F).comp w.defaultFrameF.R
  let w_AB := s.bodyAngularVelocity w.B
  let w_AF := s.bodyAngularVelocity w.F
  let w_BF := w_AF - w_AB
  let orientationErr : Vec3 :=
    ⟨dot w_BF (cross RF.colx RB.coly),
     dot w_BF (cross RF.coly RB.colz),
     dot w_BF (cross RF.colz RB.colx)⟩
  let X_AB := s.bodyTransform w.B
  let p_AF2 := calcStationLocation s w.F w.defaultFrameF.T
  let p_BC := X_AB.invApply p_AF2
  let v_AF2 := calcStationVelocity s w.F w.defaultFrameF.T
  let v_AC := calcStationVelocity s w.B p_BC
  (orientationErr, v_AF2 - v_AC)

/-- Second derivatives of the six position errors, as the pair
(orientation entries, position entries)
(source `realizePositionDotDotErrorsVirtual`). -/
def realizePositionDotDotErrorsVirtual (s : KinState) (w : WeldImpl) : Vec3 × Vec3 :=
  let RB := (s.bodyRotation w.B).comp w.defaultFrameB.R
  let RF := (s.bodyRotation w.F).comp w.defaultFrameF.R
  let w_AB := s.bodyAngularVelocity w.B
  let w_AF := s.bodyAngularVelocity w.F
  let w_BF := w_AF - w_AB
  let b_AB := s.bodyAngularAcceleration w.B
  let b_AF := s.bodyAngularAcceleration w.F
  let b_BF := b_AF - b_AB
  let orientationErr : Vec3 :=
    ⟨dot b_BF (cross RF.colx RB.coly)
       + dot w_BF (cross (cross w_AF RF.colx) RB.coly - cross (cross w_AB RB.coly) RF.colx),
     dot b_BF (cross RF.coly RB.colz)
       + dot w_BF (cross (cross w_AF RF.coly) RB.colz - cross (cross w_AB RB.colz) RF.coly),
     dot b_BF (cross RF.colz RB.colx)
       + dot w_BF (cross (cross w_AF RF.colz) RB.colx - cross (cross w_AB RB.colx) RF.colz)⟩
  let X_AB := s.bodyTransform w.B
  let p_AF2 := calcStationLocation s w.F w.defaultFrameF.T
  let p_BC := X_AB.invApply p_AF2
  let a_AF2 := calcStationAcceleration s w.F w.defaultFrameF.T
  let a_AC := calcStationAcceleration s w.B p_BC
  (orientationErr, a_AF2 - a_AC)

/-- Force application: multipliers 0..2 produce the ConstantOrientation
torque pair built from the weld frames' axes, multipliers 3..5 the Ball
force pair at the weld frames' origins
(source `applyPositionConstraintForcesVirtual`). -/
def applyPositionConstraintForcesVirtual (s : KinState) (w : WeldImpl)
    (torques force_A : Vec3) (bodyForcesInA : List SpatialVec) : List SpatialVec :=
  let RB := (s.bodyRotation w.B).comp w.defaultFrameB.R
  let RF := (s.bodyRotation w.F).comp w.defaultFrameF.R
  let torque_F_A := torques.x • cross RF.colx RB.coly
    + torques.y • cross RF.coly RB.colz
    + torques.z • cross RF.colz RB.colx
  let buf1 := addInBodyTorque s w.B (-torque_F_A)
    (addInBodyTorque s w.F torque_F_A bodyForcesInA)
  let X_AB := s.bodyTransform w.B
  let p_FF2 := w.defaultFrameF.T
  let p_AF2 := calcStationLocation s w.F p_FF2
  let p_BC := X_AB.invApply p_AF2
  addInStationForce s w.B p_BC (-force_A)
    (addInStationForce s w.F p_FF2 force_A buf1)

end WeldImpl

/-! ## The NoSlip1D constraint (`Constraint::NoSlip1DImpl`) -/

/-- Construction-time data of the NoSlip1D constraint: contact point P and
no-slip direction n fixed in case body C, two moving bodies B0 and B1.
`directionLength`/`pointRadius` are visualization-only. -/
structure NoSlip1DImpl where
  caseBody : Nat
  movingBody0 : Nat
  movingBody1 : Nat
  defaultNoSlipDirection : Vec3
  defaultContactPoint : Vec3
  directionLength : ℚ
  pointRadius : ℚ

namespace NoSlip1DImpl

/-- Default equation counts set by the NoSlip1D constructor:
`ConstraintImpl(0,1,0)` — no position-level equation, one velocity-level
(nonholonomic) equation, no acceleration-only equation. -/
def defaultCounts : Nat × Nat × Nat := (0, 1, 0)

/-- Velocity error: `verr = ~(v_AP1 - v_AP0) * n_A` — relative velocity of
the two material points coincident with the case-fixed contact point,
projected on the case-fixed direction re-expressed in A
(source `realizeVelocityErrorsVirtual`). -/
def realizeVelocityErrorsVirtual (s : KinState) (ns : NoSlip1DImpl) : ℚ :=
  let X_AC := s.bodyTransform ns.caseBody
  let X_AB0 := s.bodyTransform ns.movingBody0
  let X_AB1 := s.bodyTransform ns.movingBody1
  let p_AP := X_AC.apply ns.defaultContactPoint
  let p_P0 := X_AB0.invApply p_AP
  let p_P1 := X_AB1.invApply p_AP
  let n_A := X_AC.R.apply ns.defaultNoSlipDirection
  let v_AP0 := calcStationVelocity s ns.movingBody0 p_P0
  let v_AP1 := calcStationVelocity s ns.movingBody1 p_P1
  dot (v_AP1 - v_AP0) n_A

/-- Acceleration error:
`vaerr = ~(a_AP1 - a_AP0 - w_AC % (v_AP1 - v_AP0)) * n_A`, including the
Coriolis-like correction from the case body's angular velocity
(source `realizeVelocityDotErrorsVirtual`). -/
def realizeVelocityDotErrorsVirtual (s : KinState) (ns : NoSlip1DImpl) : ℚ :=
  let X_AC := s.bodyTransform ns.caseBody
  let X_AB0 := s.bodyTransform ns.movingBody0
  let X_AB1 := s.bodyTransform ns.movingBody1
  let p_AP := X_AC.apply ns.defaultContactPoint
  let p_P0 := X_AB0.invApply p_AP
  let p_P1 := X_AB1.invApply p_AP
  let n_A := X_AC.R.apply ns.defaultNoSlipDirection
  let v_AP0 := calcStationVelocity s ns.movingBody0 p_P0
  let v_AP1 := calcStationVelocity s ns.movingBody1 p_P1
  let w_AC := s.bodyAngularVelocity ns.caseBody
  let a_AP0 := calcStationAcceleration s ns.movingBody0 p_P0
  let a_AP1 := calcStationAcceleration s ns.movingBody1 p_P1
  dot (a_AP1 - a_AP0 - cross w_AC (v_AP1 - v_AP0)) n_A

/-- Force application: `f = lambda * n` (re-expressed in A) applied to the
contact station of B1, `-f` to the contact station of B0
(source `applyVelocityConstraintForcesVirtual`). -/
def applyVelocityConstraintForcesVirtual (s : KinState) (ns : NoSlip1DImpl) (lambda : ℚ)
    (bodyForcesInA : List SpatialVec) : List SpatialVec :=
  let X_AC := s.bodyTransform ns.caseBody
  let X_AB0 := s.bodyTransform ns.movingBody0
  let X_AB1 := s.bodyTransform ns.movingBody1
  let p_AP := X_AC.apply ns.defaultContactPoint
  let p_P0 := X_AB0.invApply p_AP
  let p_P1 := X_AB1.invApply p_AP
  let force_A := X_AC.R.apply (lambda • ns.defaultNoSlipDirection)
  addInStationForce s ns.movingBody0 p_P0 (-force_A)
    (addInStationForce s ns.movingBody1 p_P1 force_A bodyForcesInA)

end NoSlip1DImpl

/-! ## The ConstantSpeed constraint (`Constraint::ConstantSpeedImpl`) -/

/-- Construction-time data of the ConstantSpeed constraint: one constrained
mobilizer, one mobility index within it, and the prescribed speed. -/
structure ConstantSpeedImpl where
  theMobilizer : Nat
  whichMobility : Nat
  prescribedSpeed : ℚ

namespace ConstantSpeedImpl

/-- Default equation counts set by the ConstantSpeed constructor:
`ConstraintImpl(0,1,0)`. -/
def defaultCounts : Nat × Nat × Nat := (0, 1, 0)

/-- Velocity error: `verr = u - s`
(source `realizeVelocityErrorsVirtual`). -/
def realizeVelocityErrorsVirtual (s : KinState) (cs : ConstantSpeedImpl) : ℚ :=
  s.oneU cs.theMobilizer cs.whichMobility - cs.prescribedSpeed

/-- Acceleration error: `vaerr = udot`
(source `realizeVelocityDotErrorsVirtual`). -/
def realizeVelocityDotErrorsVirtual (s : KinState) (cs : ConstantSpeedImpl) : ℚ :=
  s.oneUDot cs.theMobilizer cs.whichMobility

/-- Force application: the multiplier is added directly as a generalized
force on the one mobility; the body-force buffer is not touched
(source `applyVelocityConstraintForcesVirtual`). -/
def applyVelocityConstraintForcesVirtual (s : KinState) (cs : ConstantSpeedImpl) (lambda : ℚ)
    (bodyForcesInA : List SpatialVec) (mobilityForces : List ℚ) :
    List SpatialVec × List ℚ :=
  (bodyForcesInA, addInOneMobilityForce s cs.theMobilizer cs.whichMobility lambda mobilityForces)

end ConstantSpeedImpl

/-- Concrete ConstantSpeed example from the spec: prescribed speed 2,
mobilizer and mobility index 0. -/
def csExample : ConstantSpeedImpl := { theMobilizer := 0, whichMobility := 0, prescribedSpeed := 2 }

/-- Concrete state whose one mobility speed is 5/2, mapped to slot 0. -/
def csExampleState : KinState :=
  { rodExampleState with oneU := fun _ _ => 5 / 2 }

/-- ConstantOrientation instance whose data are the rotation parts of a
Weld's two frames (used to state that Weld's first three equations are the
ConstantOrientation pattern). -/
def coOfWeld (w : WeldImpl) : ConstantOrientationImpl :=
  { B := w.B, F := w.F, defaultRB := w.defaultFrameB.R, defaultRF := w.defaultFrameF.R }

/-- Ball instance whose stations are the origins of a Weld's two frames
(used to state that Weld's last three equations are the Ball pattern;
`defaultRadius` is visualization-only). -/
def ballOfWeld (w : WeldImpl) : BallImpl :=
  { B1 := w.B, B2 := w.F, defaultPoint1 := w.defaultFrameB.T,
    defaultPoint2 := w.defaultFrameF.T, defaultRadius := 0 }

/-! ## Derived operators of the abstract constraint contract -/

/-- Uniform view of one constraint as the base-class derived operators see
it: the current (Model-stage) equation counts `mp`, `mv`, `ma`, the
constrained-body count, and the three `applyXConstraintForces` virtuals,
each mapping a multiplier segment and the (bodyForces, mobilityForces) pair
to the updated pair.  The per-kind instantiations plug the concrete apply
routines above into these slots. -/
structure ConstraintOps where
  numConstrainedBodies : Nat
  actualMp : Nat
  actualMv : Nat
  actualMa : Nat
  applyPositionConstraintForces :
    List ℚ → List SpatialVec × List ℚ → List SpatialVec × List ℚ
  applyVelocityConstraintForces :
    List ℚ → List SpatialVec × List ℚ → List SpatialVec × List ℚ
  applyAccelerationConstraintForces :
    List ℚ → List SpatialVec × List ℚ → List SpatialVec × List ℚ

/-- Derived operator `calcConstraintForcesFromMultipliers` of the source:
resizes the body-force buffer to the constrained-body count and zero-fills
it; the corresponding resize-and-zero of the mobility-force buffer is
commented out in the source (`//TODO`), so the incoming `mobilityForces`
content is passed through untouched.  Then for each nonzero category the
declared count is validated against the actual count (the source `assert`,
modelled as `none` = fatal configuration error) and the matching
`applyXConstraintForces` is invoked on the lambda segment at offsets
`0`, `mp`, `mp+mv`.  The incoming body buffer content is discarded by the
resize, so it is not a parameter here. -/
def calcConstraintForcesFromMultipliers (c : ConstraintOps) (mp mv ma : Nat)
    (lambda : List ℚ) (mobilityForces : List ℚ) :
    Option (List SpatialVec × List ℚ) := do
  let s0 := (List.replicate c.numConstrainedBodies (0 : SpatialVec), mobilityForces)
  let s1 ← if mp = 0 then some s0
    else if mp = c.actualMp then some (c.applyPositionConstraintForces (lambda.take mp) s0)
    else none
  let s2 ← if mv = 0 then some s1
    else if mv = c.actualMv then
      some (c.applyVelocityConstraintForces ((lambda.drop mp).take mv) s1)
    else none
  if ma = 0 then some s2
  else if ma = c.actualMa then
    some (c.applyAccelerationConstraintForces (lambda.drop (mp + mv)) s2)
  else none

/-- Derived operator `convertConstraintForcesToGeneralizedForces` of the
source: its entire body is `assert(!"... not implemented yet")`; it never
writes its `generalizedForces` output, so it is the constantly-failing
function. -/
def convertConstraintForcesToGeneralizedForces (_c : ConstraintOps)
    (_bodyForcesInA : List SpatialVec) (_mobilityForces : List ℚ) :
    Option (List ℚ) :=
  none

/-- Derived operator `calcGTransposeLambda` of the source: computes the
per-body/mobility forces from the multipliers (on fresh local buffers) and
then projects them through `convertConstraintForcesToGeneralizedForces`. -/
def calcGTransposeLambda (c : ConstraintOps) (mp mv ma : Nat) (lambda : List ℚ) :
    Option (List ℚ) :=
  (calcConstraintForcesFromMultipliers c mp mv ma lambda []).bind fun r =>
    convertConstraintForcesToGeneralizedForces c r.1 r.2

/-- `ConstraintOps` view of a ConstantSpeed constraint: no constrained
bodies, equation counts `(0,1,0)`, and the velocity-category apply routine
of `ConstantSpeedImpl` reading the first multiplier of its segment
(`*multipliers` in the source).  The position and acceleration slots are
never invoked for this kind (their counts are 0); they are the identity. -/
def csOps (s : KinState) (cs : ConstantSpeedImpl) : ConstraintOps where
  numConstrainedBodies := 0
  actualMp := 0
  actualMv := 1
  actualMa := 0
  applyPositionConstraintForces := fun _ st => st
  applyVelocityConstraintForces := fun lam st =>
    cs.applyVelocityConstraintForcesVirtual s (lam.getD 0 0) st.1 st.2
  applyAccelerationConstraintForces := fun _ st => st

/-! ## Concrete exemplar data used by witnesses and counterexamples -/

/-- State for the torque-sum counterexample: identity rotations, body 0 at
the ancestor origin, body 1 translated to `(0,1,0)`. -/
def rodTorqueState : KinState :=
  { rodExampleState with
      bodyTransform := fun B =>
        if B = 1 then ⟨Rotation.id3, ⟨0, 1, 0⟩⟩ else ⟨Rotation.id3, 0⟩ }

/-- Rod instance for the torque-sum counterexample: bodies 0 and 1, station
`(1,0,0)` on body 1, station at body 0's origin. -/
def rodTorqueExample : RodImpl :=
  { B1 := 0, B2 := 1, defaultPoint1 := 0, defaultPoint2 := ⟨1, 0, 0⟩,
    defaultRodLength := 1, pointRadius := 0 }

/-- Concrete PointInPlane instance on bodies 0 and 1. -/
def pipExample : PointInPlaneImpl :=
  { planeBody := 0, followerBody := 1, defaultPlaneNormal := ⟨0, 0, 1⟩,
    defaultPlaneHeight := 0, defaultFollowerPoint := 0,
    planeHalfWidth := 1, pointRadius := 1 / 20 }

/-- Concrete PointOnLine instance on bodies 0 and 1, line along the z axis,
topology cache not yet realized. -/
def polExample : PointOnLineImpl :=
  { lineBody := 0, followerBody := 1, defaultLineDirection := ⟨0, 0, 1⟩,
    defaultPointOnLine := 0, defaultFollowerPoint := 0,
    lineHalfLength := 1, pointRadius := 1 / 20, x := 0, y := 0 }

/-- Model of `UnitVec3::perp()` at the concrete direction `(0,0,1)`: the
perpendicular unit vector `(1,0,0)`. -/
def perpExample : Vec3 → Vec3 := fun _ => ⟨1, 0, 0⟩

/-- Concrete ConstantAngle instance on bodies 0 and 1, angle 0, cache not
yet realized. -/
def caExample : ConstantAngleImpl :=
  { B := 0, F := 1, defaultAxisB := ⟨1, 0, 0⟩, defaultAxisF := ⟨0, 1, 0⟩,
    defaultAngle := 0, axisLength := 1, axisThickness := 1,
    cosineOfDefaultAngle := 0 }

/-- Model of `std::cos` at the concrete angle 0: the constant 1. -/
def cosExample : ℚ → ℚ := fun _ => 1

/-- Concrete Ball instance on bodies 0 and 1. -/
def ballExample : BallImpl :=
  { B1 := 0, B2 := 1, defaultPoint1 := 0, defaultPoint2 := 0, defaultRadius := 1 / 10 }

/-- Concrete ConstantOrientation instance on bodies 0 and 1. -/
def coExample : ConstantOrientationImpl :=
  { B := 0, F := 1, defaultRB := Rotation.id3, defaultRF := Rotation.id3 }

/-- Concrete Weld instance on bodies 0 and 1, body frames as weld frames. -/
def weldExample : WeldImpl :=
  { B := 0, F := 1, defaultFrameB := ⟨Rotation.id3, 0⟩,
    defaultFrameF := ⟨Rotation.id3, 0⟩, axisDisplayLength := 1,
    frameBColor := ⟨0, 0, 1⟩, frameFColor := ⟨1, 0, 1⟩ }

/-- Concrete NoSlip1D instance with case body 0 and moving bodies 0, 1. -/
def nsExample : NoSlip1DImpl :=
  { caseBody := 0, movingBody0 := 0, movingBody1 := 1,
    defaultNoSlipDirection := ⟨1, 0, 0⟩, defaultContactPoint := 0,
    directionLength := 1, pointRadius := 1 / 20 }

/-! ## Helper lemmas on buffers and sums -/

theorem cross_zero_right (a : Vec3) : cross a 0 = 0 := by
  ext <;> simp [cross]

theorem addInStationForce_length (s : KinState) (B : Nat) (p f : Vec3)
    (buf : List SpatialVec) : (addInStationForce s B p f buf).length = buf.length := by
  simp [addInStationForce]

theorem addInBodyTorque_length (s : KinState) (B : Nat) (t : Vec3)
    (buf : List SpatialVec) : (addInBodyTorque s B t buf).length = buf.length := by
  simp [addInBodyTorque]

theorem idxSum_set (g : Nat → SpatialVec → Vec3) (hg : ∀ k a b, g k (a + b) = g k a + g k b)
    (buf : List SpatialVec) (k i : Nat) (hi : i < buf.length) (d : SpatialVec) :
    idxSum g k (buf.set i (buf.getD i 0 + d)) = idxSum g k buf + g (k + i) d := by
  induction buf generalizing k i with
  | nil => simp at hi
  | cons a t ih =>
    cases i with
    | zero =>
      simp only [List.set_cons_zero, List.getD_cons_zero, idxSum, hg, Nat.add_zero]
      abel
    | succ n =>
      have hn : n < t.length := by simpa using hi
      simp only [List.set_cons_succ, List.getD_cons_succ, idxSum]
      rw [ih (k + 1) n hn]
      have he : k + 1 + n = k + (n + 1) := by omega
      rw [he]
      abel

theorem sumForce_addInStationForce (s : KinState) (B : Nat) (p f : Vec3)
    (buf : List SpatialVec) (hB : B < buf.length) :
    sumForce (addInStationForce s B p f buf) = sumForce buf + f := by
  unfold sumForce addInStationForce
  rw [idxSum_set _ (fun _ _ _ => rfl) _ _ _ hB]

theorem sumTorque_addInStationForce (s : KinState) (B : Nat) (p f : Vec3)
    (buf : List SpatialVec) (hB : B < buf.length) :
    sumTorque (addInStationForce s B p f buf) =
      sumTorque buf + cross ((s.bodyRotation B).apply p) f := by
  unfold sumTorque addInStationForce
  rw [idxSum_set _ (fun _ _ _ => rfl) _ _ _ hB]

theorem sumForce_addInBodyTorque (s : KinState) (B : Nat) (t : Vec3)
    (buf : List SpatialVec) (hB : B < buf.length) :
    sumForce (addInBodyTorque s B t buf) = sumForce buf := by
  unfold sumForce addInBodyTorque
  rw [idxSum_set _ (fun _ _ _ => rfl) _ _ _ hB]
  simp

theorem sumTorque_addInBodyTorque (s : KinState) (B : Nat) (t : Vec3)
    (buf : List SpatialVec) (hB : B < buf.length) :
    sumTorque (addInBodyTorque s B t buf) = sumTorque buf + t := by
  unfold sumTorque addInBodyTorque
  rw [idxSum_set _ (fun _ _ _ => rfl) _ _ _ hB]

theorem moment_entry_additive (s : KinState) (B : Nat) (a b : SpatialVec) :
    (a + b).rot + cross ((s.bodyTransform B).T) (a + b).lin =
      (a.rot + cross ((s.bodyTransform B).T) a.lin) +
        (b.rot + cross ((s.bodyTransform B).T) b.lin) := by
  ext <;> simp [cross] <;> ring

theorem sumMomentAboutA_addInStationForce (s : KinState) (B : Nat) (p f : Vec3)
    (buf : List SpatialVec) (hB : B < buf.length) :
    sumMomentAboutA s (addInStationForce s B p f buf) =
      sumMomentAboutA s buf +
        (cross ((s.bodyRotation B).apply p) f + cross ((s.bodyTransform B).T) f) := by
  unfold sumMomentAboutA addInStationForce
  rw [idxSum_set _ (fun B a b => moment_entry_additive s B a b) _ _ _ hB]
  simp

theorem sumMomentAboutA_addInBodyTorque (s : KinState) (B : Nat) (t : Vec3)
    (buf : List SpatialVec) (hB : B < buf.length) :
    sumMomentAboutA s (addInBodyTorque s B t buf) = sumMomentAboutA s buf + t := by
  unfold sumMomentAboutA addInBodyTorque
  rw [idxSum_set _ (fun B a b => moment_entry_additive s B a b) _ _ _ hB]
  simp [cross_zero_right]

/-! ## Verified claims -/

/-- C1: the Rod constraint's single position error equals
`(dot (p2-p1) (p2-p1) - d^2)/2` over the two stations measured and expressed
in the ancestor frame, its first derivative equals `(v2-v1).(p2-p1)`, and its
second derivative equals `(a2-a1).(p2-p1) + (v2-v1).(v2-v1)`; whenever the
station distance equals the rod length the position error vanishes, and on
the spec's concrete example (`p1=(0,0,0)`, `p2=(2,0,0)`, `d=1`) it is `3/2`. -/
theorem rod_error_equations (s : KinState) (rod : RodImpl) :
    (rod.realizePositionErrorsVirtual s =
      (dot (calcStationLocation s rod.B2 rod.defaultPoint2 -
              calcStationLocation s rod.B1 rod.defaultPoint1)
           (calcStationLocation s rod.B2 rod.defaultPoint2 -
              calcStationLocation s rod.B1 rod.defaultPoint1)
        - rod.defaultRodLength * rod.defaultRodLength) / 2) ∧
    (rod.realizePositionDotErrorsVirtual s =
      dot (calcStationVelocity s rod.B2 rod.defaultPoint2 -
             calcStationVelocity s rod.B1 rod.defaultPoint1)
          (calcStationLocation s rod.B2 rod.defaultPoint2 -
             calcStationLocation s rod.B1 rod.defaultPoint1)) ∧
    (rod.realizePositionDotDotErrorsVirtual s =
      dot (calcStationAcceleration s rod.B2 rod.defaultPoint2 -
             calcStationAcceleration s rod.B1 rod.defaultPoint1)
          (calcStationLocation s rod.B2 rod.defaultPoint2 -
             calcStationLocation s rod.B1 rod.defaultPoint1)
      + dot (calcStationVelocity s rod.B2 rod.defaultPoint2 -
               calcStationVelocity s rod.B1 rod.defaultPoint1)
            (calcStationVelocity s rod.B2 rod.defaultPoint2 -
               calcStationVelocity s rod.B1 rod.defaultPoint1)) ∧
    (dot (calcStationLocation s rod.B2 rod.defaultPoint2 -
            calcStationLocation s rod.B1 rod.defaultPoint1)
         (calcStationLocation s rod.B2 rod.defaultPoint2 -
            calcStationLocation s rod.B1 rod.defaultPoint1)
       = rod.defaultRodLength * rod.defaultRodLength →
      rod.realizePositionErrorsVirtual s = 0) ∧
    rodExample.realizePositionErrorsVirtual rodExampleState = 3 / 2 := by
  refine ⟨rfl, rfl, rfl, fun h => ?_, by
    norm_num [RodImpl.realizePositionErrorsVirtual, calcStationLocation, Transform.apply,
      Rotation.apply, Rotation.id3, rodExample, rodExampleState, dot]⟩
  simp only [RodImpl.realizePositionErrorsVirtual, h]
  ring

/-- Witness for C1: on the concrete state with the stations one rod length
apart, the position error evaluates to zero via the theorem. -/
theorem rod_error_equations_witness :
    rodExample.realizePositionErrorsVirtual rodUnitState = 0 :=
  (rod_error_equations rodUnitState rodExample).2.2.2.1 (by
    norm_num [calcStationLocation, Transform.apply, Rotation.apply, Rotation.id3,
      rodExample, rodUnitState, rodExampleState, dot])

/-- C2: `calcStationVelocity` returns the body-origin velocity plus the
angular velocity crossed with the re-expressed station, and
`calcStationAcceleration` returns the body-origin acceleration plus the
angular acceleration crossed with the lever arm plus the centripetal term
`w % (w % p_A)`, with exactly this grouping of the cross products. -/
theorem station_kinematics_grouping (s : KinState) (B : Nat) (p_B : Vec3) :
    calcStationVelocity s B p_B =
      (s.bodyVelocity B).lin +
        cross (s.bodyVelocity B).rot ((s.bodyRotation B).apply p_B) ∧
    calcStationAcceleration s B p_B =
      (s.bodyAcceleration B).lin +
        cross (s.bodyAcceleration B).rot ((s.bodyRotation B).apply p_B) +
        cross (s.bodyAngularVelocity B)
          (cross (s.bodyAngularVelocity B) ((s.bodyRotation B).apply p_B)) :=
  ⟨rfl, rfl⟩

/-- C6: the NoSlip1D constraint has equation counts `(0,1,0)` (no
position-level equation); its velocity error is the relative velocity of the
two moving bodies' material points coincident with the case-fixed contact
point, projected on the case-fixed direction; and its acceleration error is
`(a_P1 - a_P0 - w_AC % (v_P1 - v_P0)) . n`, including the Coriolis-like
correction from the case body's angular velocity. -/
theorem noslip_error_equations (s : KinState) (ns : NoSlip1DImpl) :
    NoSlip1DImpl.defaultCounts = (0, 1, 0) ∧
    ns.realizeVelocityErrorsVirtual s =
      dot (calcStationVelocity s ns.movingBody1
             ((s.bodyTransform ns.movingBody1).invApply
               ((s.bodyTransform ns.caseBody).apply ns.defaultContactPoint)) -
           calcStationVelocity s ns.movingBody0
             ((s.bodyTransform ns.movingBody0).invApply
               ((s.bodyTransform ns.caseBody).apply ns.defaultContactPoint)))
          ((s.bodyTransform ns.caseBody).R.apply ns.defaultNoSlipDirection) ∧
    ns.realizeVelocityDotErrorsVirtual s =
      dot (calcStationAcceleration s ns.movingBody1
             ((s.bodyTransform ns.movingBody1).invApply
               ((s.bodyTransform ns.caseBody).apply ns.defaultContactPoint)) -
           calcStationAcceleration s ns.movingBody0
             ((s.bodyTransform ns.movingBody0).invApply
               ((s.bodyTransform ns.caseBody).apply ns.defaultContactPoint)) -
           cross (s.bodyAngularVelocity ns.caseBody)
             (calcStationVelocity s ns.movingBody1
               ((s.bodyTransform ns.movingBody1).invApply
                 ((s.bodyTransform ns.caseBody).apply ns.defaultContactPoint)) -
              calcStationVelocity s ns.movingBody0
               ((s.bodyTransform ns.movingBody0).invApply
                 ((s.bodyTransform ns.caseBody).apply ns.defaultContactPoint))))
          ((s.bodyTransform ns.caseBody).R.apply ns.defaultNoSlipDirection) :=
  ⟨rfl, rfl, rfl⟩

/-- C7: ConstantSpeed's velocity error is `u - s`, its acceleration error is
`udot`, and its force application adds the multiplier directly as a
generalized force into the slot of its one mobility, leaving the body-force
buffer and every other mobility slot unchanged; for prescribed speed 2 the
velocity error is 0 at mobility speed 2 and 1/2 at speed 5/2. -/
theorem constantspeed_equations (s : KinState) (cs : ConstantSpeedImpl) (lambda : ℚ)
    (bodyForcesInA : List SpatialVec) (mobilityForces : List ℚ)
    (h : s.constrainedUIndex cs.theMobilizer cs.whichMobility < mobilityForces.length) :
    cs.realizeVelocityErrorsVirtual s =
      s.oneU cs.theMobilizer cs.whichMobility - cs.prescribedSpeed ∧
    cs.realizeVelocityDotErrorsVirtual s = s.oneUDot cs.theMobilizer cs.whichMobility ∧
    (cs.applyVelocityConstraintForcesVirtual s lambda bodyForcesInA mobilityForces).1 =
      bodyForcesInA ∧
    (cs.applyVelocityConstraintForcesVirtual s lambda bodyForcesInA mobilityForces).2.getD
        (s.constrainedUIndex cs.theMobilizer cs.whichMobility) 0 =
      mobilityForces.getD (s.constrainedUIndex cs.theMobilizer cs.whichMobility) 0 + lambda ∧
    (∀ j, j ≠ s.constrainedUIndex cs.theMobilizer cs.whichMobility →
      (cs.applyVelocityConstraintForcesVirtual s lambda bodyForcesInA mobilityForces).2.getD
          j 0 = mobilityForces.getD j 0) ∧
    (cs.prescribedSpeed = 2 → s.oneU cs.theMobilizer cs.whichMobility = 2 →
      cs.realizeVelocityErrorsVirtual s = 0) ∧
    (cs.prescribedSpeed = 2 → s.oneU cs.theMobilizer cs.whichMobility = 5 / 2 →
      cs.realizeVelocityErrorsVirtual s = 1 / 2) := by
  refine ⟨rfl, rfl, rfl, ?_, ?_, ?_, ?_⟩
  · simp [ConstantSpeedImpl.applyVelocityConstraintForcesVirtual, addInOneMobilityForce,
      List.getD, List.getElem?_set_self, h]
  · intro j hj
    simp [ConstantSpeedImpl.applyVelocityConstraintForcesVirtual, addInOneMobilityForce,
      List.getD, List.getElem?_set_ne (h := hj.symm)]
  · intro hs hu
    simp [ConstantSpeedImpl.realizeVelocityErrorsVirtual, hs, hu]
  · intro hs hu
    rw [ConstantSpeedImpl.realizeVelocityErrorsVirtual, hs, hu]
    norm_num

/-- Witness for C7: at the concrete state with mobility speed 5/2 and a
one-slot mobility buffer, the theorem yields velocity error 1/2. -/
theorem constantspeed_equations_witness :
    csExample.realizeVelocityErrorsVirtual csExampleState = 1 / 2 :=
  (constantspeed_equations csExampleState csExample 1 [] [0] (by decide)).2.2.2.2.2.2
    rfl rfl

/-- C8: at every error level the Weld constraint's six equations are the
concatenation of the ConstantOrientation pattern applied to the weld frames'
rotations (entries 0..2, which are the three cyclic axis-alignment equations
`axis_i(F) . axis_{i+1}(B)`) and the Ball pattern applied to the weld
frames' origins (entries 3..5); its force application likewise composes the
ConstantOrientation torque pair with the Ball force pair. -/
theorem weld_concatenates_constantorientation_and_ball (s : KinState) (w : WeldImpl)
    (torques force_A : Vec3) (bodyForcesInA : List SpatialVec) :
    w.realizePositionErrorsVirtual s =
      ((coOfWeld w).realizePositionErrorsVirtual s,
       (ballOfWeld w).realizePositionErrorsVirtual s) ∧
    w.realizePositionDotErrorsVirtual s =
      ((coOfWeld w).realizePositionDotErrorsVirtual s,
       (ballOfWeld w).realizePositionDotErrorsVirtual s) ∧
    w.realizePositionDotDotErrorsVirtual s =
      ((coOfWeld w).realizePositionDotDotErrorsVirtual s,
       (ballOfWeld w).realizePositionDotDotErrorsVirtual s) ∧
    (w.realizePositionErrorsVirtual s).1 =
      ⟨dot ((s.bodyRotation w.F).comp w.defaultFrameF.R).colx
           ((s.bodyRotation w.B).comp w.defaultFrameB.R).coly,
       dot ((s.bodyRotation w.F).comp w.defaultFrameF.R).coly
           ((s.bodyRotation w.B).comp w.defaultFrameB.R).colz,
       dot ((s.bodyRotation w.F).comp w.defaultFrameF.R).colz
           ((s.bodyRotation w.B).comp w.defaultFrameB.R).colx⟩ ∧
    w.applyPositionConstraintForcesVirtual s torques force_A bodyForcesInA =
      (ballOfWeld w).applyPositionConstraintForcesVirtual s force_A
        ((coOfWeld w).applyPositionConstraintForcesVirtual s torques bodyForcesInA) :=
  ⟨rfl, rfl, rfl, rfl, rfl⟩

/-- C10: `addInStationForce`, `addInBodyTorque` and `addInOneMobilityForce`
accumulate into the caller-owned buffer: the targeted entry becomes its
prior value plus the computed contribution — `((R_AB*p_B) % f, f)` for a
station force, the torque added only to the rotational component for a body
torque, the scalar added to the one mobility slot — while every other entry
and the buffer length are unchanged, so contributions already present are
never overwritten. -/
theorem accumulate_into_buffers (s : KinState) (B M which : Nat)
    (p_B forceInA torqueInA : Vec3) (f : ℚ)
    (bodyForcesInA : List SpatialVec) (mobilityForces : List ℚ)
    (hB : B < bodyForcesInA.length)
    (hM : s.constrainedUIndex M which < mobilityForces.length) :
    (addInStationForce s B p_B forceInA bodyForcesInA).getD B 0 =
      bodyForcesInA.getD B 0 +
        ⟨cross ((s.bodyRotation B).apply p_B) forceInA, forceInA⟩ ∧
    (∀ j, j ≠ B →
      (addInStationForce s B p_B forceInA bodyForcesInA).getD j 0 =
        bodyForcesInA.getD j 0) ∧
    (addInStationForce s B p_B forceInA bodyForcesInA).length =
      bodyForcesInA.length ∧
    ((addInBodyTorque s B torqueInA bodyForcesInA).getD B 0).rot =
      (bodyForcesInA.getD B 0).rot + torqueInA ∧
    ((addInBodyTorque s B torqueInA bodyForcesInA).getD B 0).lin =
      (bodyForcesInA.getD B 0).lin ∧
    (∀ j, j ≠ B →
      (addInBodyTorque s B torqueInA bodyForcesInA).getD j 0 =
        bodyForcesInA.getD j 0) ∧
    (addInBodyTorque s B torqueInA bodyForcesInA).length = bodyForcesInA.length ∧
    (addInOneMobilityForce s M which f mobilityForces).getD
        (s.constrainedUIndex M which) 0 =
      mobilityForces.getD (s.constrainedUIndex M which) 0 + f ∧
    (∀ j, j ≠ s.constrainedUIndex M which →
      (addInOneMobilityForce s M which f mobilityForces).getD j 0 =
        mobilityForces.getD j 0) ∧
    (addInOneMobilityForce s M which f mobilityForces).length =
      mobilityForces.length := by
  refine ⟨?_, ?_, ?_, ?_, ?_, ?_, ?_, ?_, ?_, ?_⟩
  · simp [addInStationForce, List.getD, List.getElem?_set_self, hB]
  · intro j hj
    simp [addInStationForce, List.getD, List.getElem?_set_ne (h := hj.symm)]
  · simp [addInStationForce]
  · simp [addInBodyTorque, List.getD, List.getElem?_set_self, hB]
  · simp [addInBodyTorque, List.getD, List.getElem?_set_self, hB]
  · intro j hj
    simp [addInBodyTorque, List.getD, List.getElem?_set_ne (h := hj.symm)]
  · simp [addInBodyTorque]
  · simp [addInOneMobilityForce, List.getD, List.getElem?_set_self, hM]
  · intro j hj
    simp [addInOneMobilityForce, List.getD, List.getElem?_set_ne (h := hj.symm)]
  · simp [addInOneMobilityForce]

/-- Witness for C10: on a one-entry buffer, the station-force accumulation
applied by the theorem yields the prior entry plus the contribution. -/
theorem accumulate_into_buffers_witness :
    (addInStationForce rodExampleState 0 ⟨1, 0, 0⟩ ⟨0, 1, 0⟩
        [⟨⟨0, 0, 0⟩, ⟨5, 0, 0⟩⟩]).getD 0 0 =
      ([⟨⟨0, 0, 0⟩, ⟨5, 0, 0⟩⟩] : List SpatialVec).getD 0 0 +
        ⟨cross ((rodExampleState.bodyRotation 0).apply ⟨1, 0, 0⟩) ⟨0, 1, 0⟩,
         ⟨0, 1, 0⟩⟩ :=
  (accumulate_into_buffers rodExampleState 0 0 0 ⟨1, 0, 0⟩ ⟨0, 1, 0⟩ ⟨0, 0, 1⟩ 1
    [⟨⟨0, 0, 0⟩, ⟨5, 0, 0⟩⟩] [0] (by decide) (by decide)).1

/-- C3 counterexample: for the Rod constraint the torque parts of the
applied body-force contributions do not sum to zero.  With body 0 at the
ancestor origin, body 1 at `(0,1,0)`, the rod station at `(1,0,0)` on body 1
and multiplier 1, the station-force torque parts (moments about each body's
own origin) sum to `(0,0,1)`, not zero. -/
theorem constraint_torque_sum_counterexample :
    sumTorque (RodImpl.applyPositionConstraintForcesVirtual rodTorqueState rodTorqueExample 1
        [0, 0]) ≠ sumTorque [0, 0] := by
  norm_num [RodImpl.applyPositionConstraintForcesVirtual, addInStationForce, sumTorque,
    idxSum, calcStationLocation, Transform.apply, Rotation.apply, Rotation.id3,
    KinState.bodyRotation, rodTorqueState, rodTorqueExample, rodExampleState, cross, dot,
    List.set, List.getD, Vec3.ext_iff]

/-- C3 amended: for every multiplier value and every body-force buffer, each
exemplar kind's force application leaves the sum of the force parts
unchanged (the two station forces, or none, cancel); the pure-torque kinds
ConstantAngle and ConstantOrientation also leave the sum of the torque parts
unchanged; and for every kind the total moment about the ancestor origin
(each entry's torque part plus its body origin cross its force part) is
unchanged, the station-force kinds requiring orthogonality of the rotation
matrices that re-project the coincident material points. -/
theorem constraint_force_sums (s : KinState)
    (rod : RodImpl) (pip : PointInPlaneImpl) (pol : PointOnLineImpl)
    (ca : ConstantAngleImpl) (ball : BallImpl) (co : ConstantOrientationImpl)
    (w : WeldImpl) (ns : NoSlip1DImpl)
    (lamRod lamPip lamPol0 lamPol1 lamCa lamNs : ℚ)
    (lamBall lamCo weldTorques weldForce : Vec3)
    (buf : List SpatialVec)
    (hr1 : rod.B1 < buf.length) (hr2 : rod.B2 < buf.length)
    (hp1 : pip.planeBody < buf.length) (hp2 : pip.followerBody < buf.length)
    (hpR : Rotation.OrthoRT (s.bodyTransform pip.planeBody).R)
    (ho1 : pol.lineBody < buf.length) (ho2 : pol.followerBody < buf.length)
    (hoR : Rotation.OrthoRT (s.bodyTransform pol.lineBody).R)
    (hc1 : ca.B < buf.length) (hc2 : ca.F < buf.length)
    (hb1 : ball.B1 < buf.length) (hb2 : ball.B2 < buf.length)
    (hbR : Rotation.OrthoRT (s.bodyTransform ball.B1).R)
    (hco1 : co.B < buf.length) (hco2 : co.F < buf.length)
    (hw1 : w.B < buf.length) (hw2 : w.F < buf.length)
    (hwR : Rotation.OrthoRT (s.bodyTransform w.B).R)
    (hn0 : ns.movingBody0 < buf.length) (hn1 : ns.movingBody1 < buf.length)
    (hnR0 : Rotation.OrthoRT (s.bodyTransform ns.movingBody0).R)
    (hnR1 : Rotation.OrthoRT (s.bodyTransform ns.movingBody1).R) :
    (sumForce (rod.applyPositionConstraintForcesVirtual s lamRod buf) = sumForce buf ∧
     sumMomentAboutA s (rod.applyPositionConstraintForcesVirtual s lamRod buf) =
       sumMomentAboutA s buf) ∧
    (sumForce (pip.applyPositionConstraintForcesVirtual s lamPip buf) = sumForce buf ∧
     sumMomentAboutA s (pip.applyPositionConstraintForcesVirtual s lamPip buf) =
       sumMomentAboutA s buf) ∧
    (sumForce (pol.applyPositionConstraintForcesVirtual s lamPol0 lamPol1 buf) =
       sumForce buf ∧
     sumMomentAboutA s (pol.applyPositionConstraintForcesVirtual s lamPol0 lamPol1 buf) =
       sumMomentAboutA s buf) ∧
    (sumForce (ca.applyPositionConstraintForcesVirtual s lamCa buf) = sumForce buf ∧
     sumTorque (ca.applyPositionConstraintForcesVirtual s lamCa buf) = sumTorque buf ∧
     sumMomentAboutA s (ca.applyPositionConstraintForcesVirtual s lamCa buf) =
       sumMomentAboutA s buf) ∧
    (sumForce (ball.applyPositionConstraintForcesVirtual s lamBall buf) = sumForce buf ∧
     sumMomentAboutA s (ball.applyPositionConstraintForcesVirtual s lamBall buf) =
       sumMomentAboutA s buf) ∧
    (sumForce (co.applyPositionConstraintForcesVirtual s lamCo buf) = sumForce buf ∧
     sumTorque (co.applyPositionConstraintForcesVirtual s lamCo buf) = sumTorque buf ∧
     sumMomentAboutA s (co.applyPositionConstraintForcesVirtual s lamCo buf) =
       sumMomentAboutA s buf) ∧
    (sumForce (w.applyPositionConstraintForcesVirtual s weldTorques weldForce buf) =
       sumForce buf ∧
     sumMomentAboutA s (w.applyPositionConstraintForcesVirtual s weldTorques weldForce buf) =
       sumMomentAboutA s buf) ∧
    (sumForce (ns.applyVelocityConstraintForcesVirtual s lamNs buf) = sumForce buf ∧
     sumMomentAboutA s (ns.applyVelocityConstraintForcesVirtual s lamNs buf) =
       sumMomentAboutA s buf) := by
  refine ⟨⟨?_, ?_⟩, ⟨?_, ?_⟩, ⟨?_, ?_⟩, ⟨?_, ?_, ?_⟩, ⟨?_, ?_⟩, ⟨?_, ?_, ?_⟩,
    ⟨?_, ?_⟩, ⟨?_, ?_⟩⟩
  · simp only [RodImpl.applyPositionConstraintForcesVirtual]
    simp only [sumForce_addInStationForce, addInStationForce_length, hr1, hr2]
    abel
  · simp only [RodImpl.applyPositionConstraintForcesVirtual]
    simp only [sumMomentAboutA_addInStationForce, addInStationForce_length, hr1, hr2]
    simp only [KinState.bodyRotation, calcStationLocation, Transform.apply]
    ext <;> simp [Rotation.apply, cross, dot] <;> ring
  · simp only [PointInPlaneImpl.applyPositionConstraintForcesVirtual]
    simp only [sumForce_addInStationForce, addInStationForce_length, hp1, hp2]
    abel
  · simp only [PointInPlaneImpl.applyPositionConstraintForcesVirtual]
    simp only [sumMomentAboutA_addInStationForce, addInStationForce_length, hp1, hp2]
    simp only [KinState.bodyRotation, Transform.invApply]
    rw [Rotation.orthoRT_apply hpR]
    simp only [calcStationLocation, Transform.apply]
    ext <;> simp [Rotation.apply, cross, dot] <;> ring
  · simp only [PointOnLineImpl.applyPositionConstraintForcesVirtual]
    simp only [sumForce_addInStationForce, addInStationForce_length, ho1, ho2]
    abel
  · simp only [PointOnLineImpl.applyPositionConstraintForcesVirtual]
    simp only [sumMomentAboutA_addInStationForce, addInStationForce_length, ho1, ho2]
    simp only [KinState.bodyRotation, Transform.invApply]
    rw [Rotation.orthoRT_apply hoR]
    simp only [calcStationLocation, Transform.apply]
    ext <;> simp [Rotation.apply, cross, dot] <;> ring
  · simp only [ConstantAngleImpl.applyPositionConstraintForcesVirtual]
    simp only [sumForce_addInBodyTorque, addInBodyTorque_length, hc1, hc2]
  · simp only [ConstantAngleImpl.applyPositionConstraintForcesVirtual]
    simp only [sumTorque_addInBodyTorque, addInBodyTorque_length, hc1, hc2]
    abel
  · simp only [ConstantAngleImpl.applyPositionConstraintForcesVirtual]
    simp only [sumMomentAboutA_addInBodyTorque, addInBodyTorque_length, hc1, hc2]
    abel
  · simp only [BallImpl.applyPositionConstraintForcesVirtual]
    simp only [sumForce_addInStationForce, addInStationForce_length, hb1, hb2]
    abel
  · simp only [BallImpl.applyPositionConstraintForcesVirtual]
    simp only [sumMomentAboutA_addInStationForce, addInStationForce_length, hb1, hb2]
    simp only [KinState.bodyRotation, Transform.invApply]
    rw [Rotation.orthoRT_apply hbR]
    simp only [calcStationLocation, Transform.apply]
    ext <;> simp [Rotation.apply, cross, dot] <;> ring
  · simp only [ConstantOrientationImpl.applyPositionConstraintForcesVirtual]
    simp only [sumForce_addInBodyTorque, addInBodyTorque_length, hco1, hco2]
  · simp only [ConstantOrientationImpl.applyPositionConstraintForcesVirtual]
    simp only [sumTorque_addInBodyTorque, addInBodyTorque_length, hco1, hco2]
    abel
  · simp only [ConstantOrientationImpl.applyPositionConstraintForcesVirtual]
    simp only [sumMomentAboutA_addInBodyTorque, addInBodyTorque_length, hco1, hco2]
    abel
  · simp only [WeldImpl.applyPositionConstraintForcesVirtual]
    simp only [sumForce_addInStationForce, sumForce_addInBodyTorque,
      addInStationForce_length, addInBodyTorque_length, hw1, hw2]
    abel
  · simp only [WeldImpl.applyPositionConstraintForcesVirtual]
    simp only [sumMomentAboutA_addInStationForce, sumMomentAboutA_addInBodyTorque,
      addInStationForce_length, addInBodyTorque_length, hw1, hw2]
    simp only [KinState.bodyRotation, Transform.invApply]
    rw [Rotation.orthoRT_apply hwR]
    simp only [calcStationLocation, Transform.apply]
    ext <;> simp [Rotation.apply, Rotation.comp, cross, dot] <;> ring
  · simp only [NoSlip1DImpl.applyVelocityConstraintForcesVirtual]
    simp only [sumForce_addInStationForce, addInStationForce_length, hn0, hn1]
    abel
  · simp only [NoSlip1DImpl.applyVelocityConstraintForcesVirtual]
    simp only [sumMomentAboutA_addInStationForce, addInStationForce_length, hn0, hn1]
    simp only [KinState.bodyRotation, Transform.invApply]
    rw [Rotation.orthoRT_apply hnR1, Rotation.orthoRT_apply hnR0]
    simp only [Transform.apply]
    ext <;> simp [Rotation.apply, cross, dot] <;> ring

/-- Witness for C3 (amended): for the concrete exemplar instances on bodies
0 and 1 with identity-rotation transforms and a two-entry buffer, the Rod
force parts sum to their prior total via the theorem. -/
theorem constraint_force_sums_witness :
    sumForce (RodImpl.applyPositionConstraintForcesVirtual rodTorqueState rodTorqueExample 1
        [0, 0]) = sumForce [0, 0] :=
  (constraint_force_sums rodTorqueState rodTorqueExample pipExample polExample caExample
    ballExample coExample weldExample nsExample 1 1 1 1 1 1 ⟨1, 2, 3⟩ ⟨1, 2, 3⟩ ⟨1, 2, 3⟩
    ⟨1, 2, 3⟩ [0, 0]
    (by decide) (by decide) (by decide) (by decide)
    (by norm_num [rodTorqueState, rodExampleState, pipExample, Rotation.OrthoRT,
      Rotation.apply, Rotation.transposeApply, Rotation.id3, dot, Vec3.ext_iff])
    (by decide) (by decide)
    (by norm_num [rodTorqueState, rodExampleState, polExample, Rotation.OrthoRT,
      Rotation.apply, Rotation.transposeApply, Rotation.id3, dot, Vec3.ext_iff])
    (by decide) (by decide) (by decide) (by decide)
    (by norm_num [rodTorqueState, rodExampleState, ballExample, Rotation.OrthoRT,
      Rotation.apply, Rotation.transposeApply, Rotation.id3, dot, Vec3.ext_iff])
    (by decide) (by decide) (by decide) (by decide)
    (by norm_num [rodTorqueState, rodExampleState, weldExample, Rotation.OrthoRT,
      Rotation.apply, Rotation.transposeApply, Rotation.id3, dot, Vec3.ext_iff])
    (by decide) (by decide)
    (by norm_num [rodTorqueState, rodExampleState, nsExample, Rotation.OrthoRT,
      Rotation.apply, Rotation.transposeApply, Rotation.id3, dot, Vec3.ext_iff])
    (by norm_num [rodTorqueState, rodExampleState, nsExample, Rotation.OrthoRT,
      Rotation.apply, Rotation.transposeApply, Rotation.id3, dot, Vec3.ext_iff])).1.1

/-- C4: the mobility-force output buffer is NOT zero-initialized by
`calcConstraintForcesFromMultipliers` — the source comments that zeroing out
(`mobilityForces.resize(...); mobilityForces = 0;`) with a `//TODO`, while
the contract stated above the apply virtuals promises both buffers are
initialized to zero prior to the call.  At the failing input (a ConstantSpeed
constraint, multiplier segment `[2]`, incoming mobility buffer `[7]`), the
call returns mobility forces `[9]`: the stale 7 is accumulated into, where
the documented behavior would give `[2]`. -/
theorem calc_forces_mobility_not_zeroed :
    calcConstraintForcesFromMultipliers (csOps csExampleState csExample) 0 1 0 [2] [7] =
      some ([], [9]) ∧ (9 : ℚ) ≠ 2 := by
  constructor
  · norm_num [calcConstraintForcesFromMultipliers, csOps, csExampleState, csExample,
      rodExampleState, ConstantSpeedImpl.applyVelocityConstraintForcesVirtual,
      addInOneMobilityForce, List.getD]
  · norm_num

/-- C5: the body/mobility-force to generalized-force conversion fails with
an explicit not-implemented signal (the source's body is a fatal
`assert(!"... not implemented yet")`) and never produces a generalized-force
output; consequently `calcGTransposeLambda`, which ends by calling it, never
returns a result either. -/
theorem generalized_force_conversion_unimplemented (c : ConstraintOps)
    (bodyForcesInA : List SpatialVec) (mobilityForces : List ℚ)
    (mp mv ma : Nat) (lambda : List ℚ) :
    convertConstraintForcesToGeneralizedForces c bodyForcesInA mobilityForces = none ∧
    calcGTransposeLambda c mp mv ma lambda = none := by
  refine ⟨rfl, ?_⟩
  unfold calcGTransposeLambda
  cases calcConstraintForcesFromMultipliers c mp mv ma lambda [] <;> rfl

/-- C9: Topology-stage realization writes PointOnLine's cached pair as
`x = direction.perp()` and `y = direction % x`, an orthonormal pair
perpendicular to the line direction (given `perp`'s documented unit-and-
perpendicular contract), and writes ConstantAngle's cached scalar as the
cosine of the default angle; the setter operations — the only other
state-mutating members of these classes — leave the cache fields untouched
(the error/force members are const and are embedded as pure functions). -/
theorem topology_cache_realization (perp : Vec3 → Vec3) (pol : PointOnLineImpl)
    (cosFn : ℚ → ℚ) (ca : ConstantAngleImpl)
    (hdir : dot pol.defaultLineDirection pol.defaultLineDirection = 1)
    (hperpUnit : dot (perp pol.defaultLineDirection) (perp pol.defaultLineDirection) = 1)
    (hperpOrtho : dot pol.defaultLineDirection (perp pol.defaultLineDirection) = 0) :
    (pol.realizeTopologyVirtual perp).x = perp pol.defaultLineDirection ∧
    (pol.realizeTopologyVirtual perp).y =
      cross pol.defaultLineDirection (perp pol.defaultLineDirection) ∧
    dot (pol.realizeTopologyVirtual perp).x (pol.realizeTopologyVirtual perp).x = 1 ∧
    dot (pol.realizeTopologyVirtual perp).y (pol.realizeTopologyVirtual perp).y = 1 ∧
    dot (pol.realizeTopologyVirtual perp).x (pol.realizeTopologyVirtual perp).y = 0 ∧
    dot pol.defaultLineDirection (pol.realizeTopologyVirtual perp).x = 0 ∧
    dot pol.defaultLineDirection (pol.realizeTopologyVirtual perp).y = 0 ∧
    (∀ h, ((pol.setLineDisplayHalfLength h).x, (pol.setLineDisplayHalfLength h).y) =
      (pol.x, pol.y)) ∧
    (∀ r, ((pol.setPointDisplayRadius r).x, (pol.setPointDisplayRadius r).y) =
      (pol.x, pol.y)) ∧
    (ca.realizeTopologyVirtual cosFn).cosineOfDefaultAngle = cosFn ca.defaultAngle ∧
    (∀ len, (ca.setAxisLength len).cosineOfDefaultAngle = ca.cosineOfDefaultAngle) ∧
    (∀ t, (ca.setAxisThickness t).cosineOfDefaultAngle = ca.cosineOfDefaultAngle) := by
  have lag : ∀ a b : Vec3,
      dot (cross a b) (cross a b) = dot a a * dot b b - dot a b * dot a b := by
    intro a b; simp only [dot, cross]; ring
  have tripRight : ∀ a b : Vec3, dot b (cross a b) = 0 := by
    intro a b; simp only [dot, cross]; ring
  have tripLeft : ∀ a b : Vec3, dot a (cross a b) = 0 := by
    intro a b; simp only [dot, cross]; ring
  refine ⟨rfl, rfl, ?_, ?_, ?_, ?_, ?_,
    fun h => rfl, fun r => rfl, rfl, fun len => rfl, fun t => rfl⟩
  · simpa [PointOnLineImpl.realizeTopologyVirtual] using hperpUnit
  · simp only [PointOnLineImpl.realizeTopologyVirtual]
    rw [lag, hdir, hperpUnit, hperpOrtho]
    norm_num
  · simp only [PointOnLineImpl.realizeTopologyVirtual]
    exact tripRight pol.defaultLineDirection (perp pol.defaultLineDirection)
  · simpa [PointOnLineImpl.realizeTopologyVirtual] using hperpOrtho
  · simp only [PointOnLineImpl.realizeTopologyVirtual]
    exact tripLeft pol.defaultLineDirection (perp pol.defaultLineDirection)

/-- Witness for C9: at the concrete line direction `(0,0,1)` with
perpendicular `(1,0,0)`, the realized cache axis `y` is a unit vector via
the theorem. -/
theorem topology_cache_realization_witness :
    dot (polExample.realizeTopologyVirtual perpExample).y
        (polExample.realizeTopologyVirtual perpExample).y = 1 :=
  (topology_cache_realization perpExample polExample cosExample caExample
    (by norm_num [polExample, dot])
    (by norm_num [polExample, perpExample, dot])
    (by norm_num [polExample, perpExample, dot])).2.2.2.1

end Simbody
